import Mathlib

/-!
Verification development for the AI-Code-Debugger repository
(server/utils/debuggerLogic.js).

The JavaScript source is shallowly embedded as pure Lean functions.
External collaborators (the ESLint library, the pylint and g++ child
processes, JSON.parse of tool output, and the Gemini explanation
capability) are modelled as explicit environment values handed to each
strategy; everything the source itself computes (string matching, the
stderr regex scraper, the lookup table, control flow, result records) is
translated faithfully from the code.  JavaScript objects whose field sets
differ across code paths are modelled as one record with Option-valued
fields, where `none` stands for an absent (undefined) or null field.
-/

/-! ## JavaScript string primitives (modelled on List Char) -/

/-- Whitespace characters recognised by JavaScript `\s`, `trim()`. -/
def isJsSpaceChar (c : Char) : Bool :=
  c == ' ' || c == '\t' || c == '\n' || c == '\r' || c == '\x0b' ||
  c == '\x0c' || c == '\u00a0' || c == '\ufeff'

/-- Characters matched by the JavaScript regex `.` (any char except line
terminators). -/
def isDotChar (c : Char) : Bool :=
  !(c == '\n' || c == '\r' || c == '\u2028' || c == '\u2029')

/-- `startsWithL pat s` : does `s` start with `pat`? -/
def startsWithL : List Char → List Char → Bool
  | [], _ => true
  | _ :: _, [] => false
  | p :: ps, c :: cs => p == c && startsWithL ps cs

/-- Substring occurrence, as JavaScript `String.prototype.includes`. -/
def containsSubL (pat : List Char) : List Char → Bool
  | [] => startsWithL pat []
  | c :: cs => startsWithL pat (c :: cs) || containsSubL pat cs

/-- JavaScript `s.includes(pat)`. -/
def jsIncludes (s pat : String) : Bool :=
  containsSubL pat.data s.data

/-- JavaScript `String.prototype.trim`. -/
def jsTrim (s : String) : String :=
  ⟨((s.data.dropWhile isJsSpaceChar).reverse.dropWhile isJsSpaceChar).reverse⟩

/-- Split a character list at newline characters (JavaScript
`s.split('\n')`); always returns at least one piece. -/
def splitOnNl : List Char → List (List Char)
  | [] => [[]]
  | c :: cs =>
    let r := splitOnNl cs
    if c == '\n' then [] :: r
    else
      match r with
      | [] => [[c]]
      | h :: t => (c :: h) :: t

/-- JavaScript `s.split('\n')` on strings. -/
def jsSplitLines (s : String) : List String :=
  (splitOnNl s.data).map (fun l => ⟨l⟩)

/-- JavaScript `s.toLowerCase()` (ASCII range, which is all the dispatcher
compares against). -/
def jsToLowerCase (s : String) : String :=
  ⟨s.data.map Char.toLower⟩

/-- Value of `parseInt(digits, 10)` on a non-empty all-digit string. -/
def digitsToNat (ds : List Char) : Nat :=
  ds.foldl (fun n c => n * 10 + (c.toNat - '0'.toNat)) 0

/-- JavaScript `a || b || c` over strings (first non-empty wins). -/
def jsOr3 (a b c : String) : String :=
  if a ≠ "" then a else if b ≠ "" then b else c

/-! ## Diagnostic data model

One record covers the message objects built by all three strategies;
fields a strategy does not set are `none` (JavaScript `undefined`). -/

structure Diag where
  ruleId : Option String := none
  severity : Option String := none
  message : String := ""
  line : Nat := 0
  column : Nat := 0
  filePath : Option String := none
  nodeType : Option String := none
  suggestions : List String := []
  type : Option String := none
  module : Option String := none
  symbol : Option String := none
  endLine : Option Nat := none
  endColumn : Option Nat := none
  errorExplanation : Option String := none
  errorSuggestion : Option String := none
deriving DecidableEq, Repr

/-- One per-file group inside a result's `analysis` array. -/
structure FileGroup where
  filePath : String
  messages : List Diag
deriving DecidableEq, Repr

/-- The result object a strategy resolves with.  Absent JavaScript fields
are `none`. -/
structure AnalysisResult where
  success : Bool
  analysis : Option (List FileGroup) := none
  fixedCode : Option String := none
  aiFixedCode : Option String := none
  aiExplanation : Option String := none
  aiSuggestion : Option String := none
  error : Option String := none
  details : Option String := none
deriving DecidableEq, Repr

/-- How the strategy's promise settles: resolved with a result, rejected
with an error message, or never settled (an unhandled rejection inside an
event handler). -/
inductive Settled where
  | resolved (r : AnalysisResult)
  | rejected (msg : String)
  | hung
deriving DecidableEq, Repr

/-- Observable outcome of one strategy invocation: the settled promise
plus the side-effect trace the spec's claims talk about (subprocess
spawned, temp files written/unlinked, explanation capability invoked). -/
structure RunOutcome where
  result : Settled
  spawned : Bool := false
  tempFileWritten : Bool := false
  srcUnlinkCalled : Bool := false
  exeUnlinkCalled : Bool := false
  aiInvoked : Bool := false
  srcPath : String := ""
  exePath : String := ""
deriving DecidableEq, Repr

/-! ## The errorExplanations lookup table (source lines 27-78) -/

structure ExplanationEntry where
  explanation : String
  suggestion : String
deriving DecidableEq, Repr

def errorExplanations : List (String × ExplanationEntry) := [
  ("Unterminated string constant",
   ⟨"This error occurs when a string literal (text enclosed in quotes) is not properly closed with its matching quote. For example, \x60\"Hello\x60 is missing a closing \x60\"\x60 or \x60\u0027\x60.",
    "Ensure all your string literals start and end with matching single (\x60\u0027\x60) or double (\x60\"\x60) quotes."⟩),
  ("Unexpected token",
   ⟨"This means there\u0027s a character or symbol where the JavaScript parser didn\u0027t expect it, often due to a syntax error or a typo.",
    "Check for missing or extra punctuation (like parentheses, brackets, curly braces, or semicolons), typos in keywords, or incorrect operator usage around the reported line and column. This can also happen with invalid syntax for newer JavaScript features if \x60ecmaVersion\x60 is too low."⟩),
  ("Missing semicolon",
   ⟨"This is a basic syntax error where a semicolon (\x60;\x60) is expected at the end of a statement but is missing.",
    "Add a semicolon (\x60;\x60) at the end of the problematic line to terminate the statement."⟩),
  ("Unexpected end of input",
   ⟨"The JavaScript parser reached the end of the code unexpectedly. This often means a block (like a function, loop, or if statement) was started but not properly closed with a curly brace (\x60\x7d\x60).",
    "Check for unclosed curly braces \x60\x7b\x7d\x60, parentheses \x60()\x60, or square brackets \x60[]\x60. Ensure all blocks are properly terminated."⟩),
  ("no-undef",
   ⟨"This error means you are trying to use a variable or function that has not been declared or imported in the current scope. ESLint cannot find its definition.",
    "Declare the variable/function using \x60const\x60, \x60let\x60, or \x60var\x60 before using it. If it\u0027s a global variable (like \x60document\x60, \x60window\x60), ensure your ESLint configuration\u0027s \x60env\x60 or \x60globals\x60 settings are correct. Check for typos in the variable/function name."⟩),
  ("no-unused-vars",
   ⟨"This warning indicates that you have declared a variable or imported a module but are not using it anywhere in your code. Unused code can be a sign of a bug or unnecessary complexity.",
    "Remove the unused variable/import or ensure it\u0027s being utilized in your logic to avoid dead code and improve readability."⟩),
  ("semi",
   ⟨"This rule enforces the use of semicolons (\x60;\x60) at the end of statements for consistency and to prevent potential automatic semicolon insertion (ASI) issues.",
    "Add a semicolon (\x60;\x60) at the end of the problematic line. If you prefer not to use semicolons, you need to configure ESLint accordingly."⟩),
  ("indent",
   ⟨"This rule enforces a consistent indentation style (e.g., 2 or 4 spaces, or tabs) across your codebase. Inconsistent indentation can make code hard to read.",
    "Adjust the indentation of the line to match the configured style (e.g., use 4 spaces instead of 2, or vice versa). Many IDEs can automatically format this."⟩),
  ("quotes",
   ⟨"This rule enforces consistent use of single (\x60\u0027\x60) or double (\x60\"\x60) quotes for string literals. Consistency improves readability.",
    "Change the quotes (single to double, or double to single) to match the configured style (e.g., use single quotes if \x60quotes: [\u0027error\u0027, \u0027single\u0027]\x60 is set)."⟩),
  ("no-trailing-spaces",
   ⟨"This rule disallows extraneous whitespace at the end of lines.",
    "Remove any trailing spaces at the end of the line."⟩),
  ("eol-last",
   ⟨"This rule enforces a newline character at the end of the file.",
    "Add an empty line (newline character) at the very end of your file."⟩)]

/-- The generic fallback pair used when no table entry applies
(source lines 163-166). -/
def genericExplanationEntry : ExplanationEntry :=
  ⟨"No specific explanation available for this error.",
   "Review the code at the reported line and column for syntax errors or logical inconsistencies. Search for the error message or rule ID online."⟩

/-- `errorExplanations[r]` as a JavaScript property access. -/
def tableLookup (r : String) : Option ExplanationEntry :=
  (errorExplanations.find? (fun p => p.1 == r)).map (fun p => p.2)

/-- JavaScript truthiness of an optional-string field. -/
def jsTruthy (o : Option String) : Bool :=
  match o with
  | none => false
  | some s => s != ""

/-- Explanation/suggestion selection used by the ESLint strategy
(source lines 163-177).  Note the source's fallback loop condition is
`!msg.ruleId && msg.message.includes(key)`: the substring scan only ever
fires when the rule id is falsy (null/undefined/empty). -/
def lookupExplanation (ruleId : Option String) (message : String) : ExplanationEntry :=
  if jsTruthy ruleId then
    match ruleId with
    | some r =>
      match tableLookup r with
      | some e => e
      | none => genericExplanationEntry
    | none => genericExplanationEntry
  else
    match errorExplanations.find? (fun p => jsIncludes message p.1) with
    | some p => p.2
    | none => genericExplanationEntry

/-! ## Explanation Augmenter (getAIExplanation, source lines 81-135) -/

/-- AI-derived result fields. -/
structure AIFields where
  aiExplanation : Option String := none
  aiSuggestion : Option String := none
  aiFixedCode : Option String := none
deriving DecidableEq, Repr

/-- Outcome of the external Gemini call together with the in-try response
handling (source lines 106-129): every failure inside that try block is
caught, so it is abstracted as either a caught failure or a completed
run producing some field triple. -/
inductive AICallOutcome where
  | fails
  | succeeds (f : AIFields)
deriving DecidableEq, Repr

/-- Environment of the explanation capability: whether GOOGLE_API_KEY was
configured (so `model` is non-null) and how the guarded call behaves. -/
structure AIEnv where
  configured : Bool
  call : AICallOutcome
deriving DecidableEq, Repr

/-- Model of `getAIExplanation` (source lines 81-135).  The prompt template
(lines 88-104) is built BEFORE the try block and evaluates
`msg.severity.toUpperCase()` for every reported message, so the function
throws (rejects) exactly when the model is configured and some message
carries no severity field; every other failure happens inside the try and
is caught, returning all-null fields. -/
def getAIExplanation (ai : AIEnv) (code language : String) (errorMessages : List Diag) :
    Except String AIFields :=
  let _ := code
  let _ := language
  if ai.configured = false then
    .ok {}
  else if errorMessages.any (fun m => m.severity.isNone) then
    .error "TypeError: Cannot read properties of undefined (reading toUpperCase)"
  else
    match ai.call with
    | .fails => .ok {}
    | .succeeds f => .ok f

/-! ## g++ stderr line parser (source lines 360-392)

The source matches each stderr line against the JavaScript regex
`^(.*?):(\d+):(\d+):\s*(error|warning):\s*(.*)$`.  The functions below
implement that regex's backtracking semantics directly: the lazy first
group grows one character at a time (over `.`-matchable characters only),
the digit groups are greedy with no viable backtracking (a shorter digit
run would leave a digit where `:` is required), the whitespace before the
severity word cannot backtrack (whitespace never starts `error`/`warning`),
and the final `\s*(.*)$` prefers the longest whitespace run that still
lets `.*` reach the end of the line. -/

/-- Match `(error|warning):` at the head of the list, returning the
severity word and the remainder after the colon. -/
def gccSevTail (r : List Char) : Option (String × List Char) :=
  if startsWithL "error".data r then
    match r.drop 5 with
    | ':' :: r6 => some ("error", r6)
    | _ => none
  else if startsWithL "warning".data r then
    match r.drop 7 with
    | ':' :: r6 => some ("warning", r6)
    | _ => none
  else none

/-- Match `\s*(.*)$` against `t`, returning the text captured by `.*`;
greedy `\s*` with backtracking (the regex `.` cannot cross a line
terminator, so a trailing `\r` can only be absorbed by `\s*`). -/
def bestTail (t : List Char) : Option (List Char) :=
  match t with
  | [] => some []
  | c :: cs =>
    if isJsSpaceChar c then
      match bestTail cs with
      | some g => some g
      | none => if (c :: cs).all isDotChar then some (c :: cs) else none
    else if (c :: cs).all isDotChar then some (c :: cs) else none

/-- Match `(\d+):(\d+):\s*(error|warning):\s*(.*)$` against the text
after a candidate first colon. -/
def gccTryRest (rest : List Char) : Option (Nat × Nat × String × String) :=
  let s1 := rest.span (fun c => c.isDigit)
  match s1.1, s1.2 with
  | [], _ => none
  | _ :: _, ':' :: r2 =>
    let s2 := r2.span (fun c => c.isDigit)
    match s2.1, s2.2 with
    | [], _ => none
    | _ :: _, ':' :: r4 =>
      match gccSevTail (r4.dropWhile isJsSpaceChar) with
      | some (sev, r6) =>
        match bestTail r6 with
        | some msgChars => some (digitsToNat s1.1, digitsToNat s2.1, sev, ⟨msgChars⟩)
        | none => none
      | none => none
    | _ :: _, _ => none
  | _ :: _, _ => none

/-- Scan for the lazy group-1 split: `pre` holds the (reversed) characters
consumed by `(.*?)` so far, `rest` the unconsumed tail.  At each position
the engine first tries to close group 1 at a colon, then extends the lazy
group by one `.`-matchable character. -/
def gccScanAux : List Char → List Char → Option (String × Nat × Nat × String × String)
  | _, [] => none
  | pre, c :: rs =>
    if c == ':' then
      match gccTryRest rs with
      | some (l, col, sev, msg) => some (⟨pre.reverse⟩, l, col, sev, msg)
      | none => gccScanAux (c :: pre) rs
    else if isDotChar c then gccScanAux (c :: pre) rs
    else none

/-- `line.match(/^(.*?):(\d+):(\d+):\s*(error|warning):\s*(.*)$/)` as
captures `(path, line, column, severity, message)`. -/
def matchGccLine (line : String) : Option (String × Nat × Nat × String × String) :=
  gccScanAux [] line.data

/-- The per-line classification in the `errorLines.forEach` body
(source lines 361-392): a regex match is emitted as a located diagnostic;
otherwise a line containing `error:` (or, failing that, `warning:`) is
emitted as an unlocated line-0/column-0 diagnostic; all other lines are
dropped. -/
def classifyGccLine (line : String) : List Diag :=
  match matchGccLine line with
  | some (p, l, c, sev, msg) =>
    [{ filePath := some p, line := l, column := c, severity := some sev,
       message := msg, ruleId := some "g++-compilation" }]
  | none =>
    if jsIncludes line "error:" then
      [{ filePath := some "<text>", line := 0, column := 0, severity := some "error",
         message := jsTrim line, ruleId := some "g++-compilation" }]
    else if jsIncludes line "warning:" then
      [{ filePath := some "<text>", line := 0, column := 0, severity := some "warning",
         message := jsTrim line, ruleId := some "g++-compilation" }]
    else []

/-- `stderr.split('\n')` followed by the forEach classification. -/
def parseGccStderr (stderr : String) : List Diag :=
  (jsSplitLines stderr).flatMap classifyGccLine

/-! ## ESLint strategy (runEsLintAnalysis, source lines 145-210) -/

/-- A raw message from the ESLint library. -/
structure ESLintMsg where
  ruleId : Option String := none
  severity : Nat := 1
  message : String := ""
  line : Nat := 0
  column : Nat := 0
  nodeType : Option String := none
  suggestions : List String := []
deriving DecidableEq, Repr

/-- One element of the array returned by `eslint.lintText`. -/
structure ESLintFileResult where
  messages : List ESLintMsg := []
  output : Option String := none
deriving Repr

/-- Behaviour of the ESLint library on this invocation: either the
construction/lint call throws with the given error message, or it
returns a results array. -/
inductive ESLintEnv where
  | throwsErr (emsg : String)
  | lintOk (results : List ESLintFileResult)

/-- Normalization of one ESLint message (source lines 162-189). -/
def formatEslintMsg (m : ESLintMsg) : Diag :=
  let e := lookupExplanation m.ruleId m.message
  { ruleId := m.ruleId,
    severity := some (if m.severity == 2 then "error" else "warning"),
    message := m.message,
    line := m.line,
    column := m.column,
    nodeType := m.nodeType,
    suggestions := m.suggestions,
    errorExplanation := some e.explanation,
    errorSuggestion := some e.suggestion }

/-- Model of `runEsLintAnalysis` (source lines 145-210).  The whole body,
including the `await getAIExplanation`, sits inside one try whose catch
returns the fixed ESLint failure result. -/
def runEsLintAnalysis (code : String) (env : ESLintEnv) (ai : AIEnv) : RunOutcome :=
  match env with
  | .throwsErr e =>
    { result := .resolved
        { success := false
          error := some "Failed to run ESLint. Check server logs for details."
          details := some e } }
  | .lintOk results =>
    let fixedCode :=
      match results.head? with
      | some r => (match r.output with | some o => o | none => code)
      | none => code
    let formattedMessages := results.flatMap (fun r => r.messages.map formatEslintMsg)
    if formattedMessages.length > 0 then
      match getAIExplanation ai code "javascript" formattedMessages with
      | .error e =>
        { aiInvoked := true
          result := .resolved
            { success := false
              error := some "Failed to run ESLint. Check server logs for details."
              details := some e } }
      | .ok f =>
        { aiInvoked := true
          result := .resolved
            { success := true
              analysis := some [⟨"<text>", formattedMessages⟩]
              fixedCode := some fixedCode
              aiFixedCode := f.aiFixedCode
              aiExplanation := f.aiExplanation
              aiSuggestion := f.aiSuggestion } }
    else
      { result := .resolved
          { success := true
            analysis := some [⟨"<text>", formattedMessages⟩]
            fixedCode := some fixedCode } }

/-! ## Pylint strategy (runPylintAnalysis, source lines 217-310) -/

/-- One record of pylint's `--output-format=json` array. -/
structure PylintMsg where
  type : String
  module : String
  symbol : String
  message : String
  line : Nat
  column : Nat
  endLine : Option Nat := none
  endColumn : Option Nat := none
deriving DecidableEq, Repr

/-- Environment of one pylint invocation: the temp-file write can throw
(caught by the outer try), the spawned process can emit an `error` event,
or it closes with accumulated stdout/stderr.  `parsed` abstracts
`JSON.parse(stdout)` for non-empty stdout (`.error` = the parse throws
with that message); the model substitutes the literal `[]` parse itself
when stdout is empty, as `JSON.parse(stdout || '[]')` does. -/
inductive PylintEnv where
  | setupFails (emsg : String)
  | spawnError (emsg : String)
  | closed (exitCode : Int) (stdout stderr : String)
      (parsed : Except String (List PylintMsg)) (ai : AIEnv)

/-- Normalization of one pylint record (source lines 262-273).  Note: no
`severity` field is set, and the explanation/suggestion are synthesized
from the record, not looked up. -/
def pylintDiag (msg : PylintMsg) : Diag :=
  { type := some msg.type
    module := some msg.module
    symbol := some msg.symbol
    message := msg.message
    line := msg.line
    column := msg.column
    endLine := msg.endLine
    endColumn := msg.endColumn
    errorExplanation := some ("Pylint found a \u0027" ++ msg.type ++ "\u0027 type issue: "
      ++ msg.message ++ ".")
    errorSuggestion := some ("Review the Python code at line " ++ toString msg.line
      ++ ", column " ++ toString msg.column
      ++ ". Consult Pylint documentation for rule \u0027" ++ msg.symbol ++ "\u0027.") }

/-- The tool-not-installed stderr signature test (source line 252). -/
def pylintNotInstalledSig (stderr : String) : Bool :=
  jsIncludes stderr "\u0027pylint\u0027 is not recognized" ||
  jsIncludes stderr "command not found: pylint"

/-- Model of `runPylintAnalysis` (source lines 217-310).  `unlinkOk` is the
outcome of each `fs.unlink`; the source attaches `.catch(log)` to every
unlink, so the computation never consults it.  In the close handler the
unlink happens first, then the stderr checks, then a try block containing
both `JSON.parse` and the `await getAIExplanation`; a rejection of either
is caught by the same `catch (parseError)`. -/
def runPylintAnalysis (code tmpdir now : String) (env : PylintEnv) (unlinkOk : Bool) :
    RunOutcome :=
  let _ := unlinkOk
  let tempFilePath := tmpdir ++ "/temp_python_code_" ++ now ++ ".py"
  match env with
  | .setupFails e =>
    { result := .resolved
        { success := false
          error := some "Failed to prepare Python code for analysis."
          details := some e }
      srcUnlinkCalled := true
      srcPath := tempFilePath }
  | .spawnError e =>
    { result := .rejected ("Failed to run Pylint: " ++ e
        ++ ". Is Pylint installed and in your PATH?")
      spawned := true
      tempFileWritten := true
      srcUnlinkCalled := true
      srcPath := tempFilePath }
  | .closed _exitCode stdout stderr parsed ai =>
    let base : RunOutcome :=
      { result := .hung
        spawned := true
        tempFileWritten := true
        srcUnlinkCalled := true
        srcPath := tempFilePath }
    if stderr != "" && pylintNotInstalledSig stderr then
      { base with
        result := .resolved
          { success := false
            error := some "Pylint is not installed or not in your system\u0027s PATH. Please install it (e.g., \u0027pip install pylint\u0027)." } }
    else if stderr != "" && stdout == "" then
      { base with
        result := .resolved
          { success := false
            error := some ("Pylint encountered an error: " ++ jsTrim stderr) } }
    else
      match (if stdout == "" then Except.ok [] else parsed) with
      | .error pe =>
        { base with
          result := .resolved
            { success := false
              error := some "Failed to parse Pylint output."
              details := some (jsOr3 stdout stderr pe) } }
      | .ok pylintResults =>
        let formattedMessages := pylintResults.map pylintDiag
        if formattedMessages.length > 0 then
          match getAIExplanation ai code "python" formattedMessages with
          | .error pe =>
            { base with
              aiInvoked := true
              result := .resolved
                { success := false
                  error := some "Failed to parse Pylint output."
                  details := some (jsOr3 stdout stderr pe) } }
          | .ok f =>
            { base with
              aiInvoked := true
              result := .resolved
                { success := true
                  analysis := some [⟨"<text>", formattedMessages⟩]
                  fixedCode := some code
                  aiFixedCode := f.aiFixedCode
                  aiExplanation := f.aiExplanation
                  aiSuggestion := f.aiSuggestion } }
        else
          { base with
            result := .resolved
              { success := true
                analysis := some [⟨"<text>", formattedMessages⟩]
                fixedCode := some code } }

/-! ## g++ strategy (runCppAnalysis, source lines 318-443) -/

/-- Environment of one g++ invocation; `exeExists` is what
`fsSync.existsSync(tempExecutablePath)` reports in the close handler. -/
inductive CppEnv where
  | setupFails (emsg : String)
  | spawnError (emsg : String)
  | closed (exitCode : Int) (stderr : String) (exeExists : Bool) (ai : AIEnv)

/-- The tool-not-installed stderr signature test (source line 394). -/
def gccNotInstalledSig (stderr : String) : Bool :=
  jsIncludes stderr "\u0027g++\u0027 is not recognized" ||
  jsIncludes stderr "command not found: g++"

/-- Model of `runCppAnalysis` (source lines 318-443).  In the close
handler the source unlinks the temp .cpp file unconditionally, unlinks
the executable when `exitCode === 0 || existsSync(exe)`, parses stderr
lines when stderr is non-empty, short-circuits on the not-installed
signature, and calls `getAIExplanation` (with NO surrounding try) when
any diagnostic exists or the exit code is nonzero; a rejection of that
await would leave the promise forever pending (`Settled.hung`). -/
def runCppAnalysis (code tmpdir now : String) (env : CppEnv) (unlinkOk : Bool) :
    RunOutcome :=
  let _ := unlinkOk
  let tempCppFilePath := tmpdir ++ "/temp_cpp_code_" ++ now ++ ".cpp"
  let tempExecutablePath := tmpdir ++ "/temp_cpp_executable_" ++ now
  match env with
  | .setupFails e =>
    { result := .resolved
        { success := false
          error := some "Failed to prepare C++ code for analysis."
          details := some e }
      srcUnlinkCalled := true
      exeUnlinkCalled := true
      srcPath := tempCppFilePath
      exePath := tempExecutablePath }
  | .spawnError e =>
    { result := .rejected ("Failed to run g++: " ++ e
        ++ ". Is g++ installed and in your PATH?")
      spawned := true
      tempFileWritten := true
      srcUnlinkCalled := true
      exeUnlinkCalled := true
      srcPath := tempCppFilePath
      exePath := tempExecutablePath }
  | .closed exitCode stderr exeExists ai =>
    let base : RunOutcome :=
      { result := .hung
        spawned := true
        tempFileWritten := true
        srcUnlinkCalled := true
        exeUnlinkCalled := (exitCode == 0 || exeExists)
        srcPath := tempCppFilePath
        exePath := tempExecutablePath }
    let formattedMessages := if stderr != "" then parseGccStderr stderr else []
    if stderr != "" && gccNotInstalledSig stderr then
      { base with
        result := .resolved
          { success := false
            error := some "g++ compiler is not installed or not in your system\u0027s PATH. Please install it." } }
    else if formattedMessages.length > 0 || exitCode != 0 then
      match getAIExplanation ai code "c++" formattedMessages with
      | .error _ => { base with aiInvoked := true, result := .hung }
      | .ok f =>
        { base with
          aiInvoked := true
          result := .resolved
            { success := true
              analysis := some [⟨"<text>", formattedMessages⟩]
              fixedCode := some code
              aiFixedCode := f.aiFixedCode
              aiExplanation := f.aiExplanation
              aiSuggestion := f.aiSuggestion } }
    else
      { base with
        result := .resolved
          { success := true
            analysis := some [⟨"<text>", formattedMessages⟩]
            fixedCode := some code } }

/-! ## Dispatcher (runCodeAnalysis, source lines 454-467) -/

/-- Model of `runCodeAnalysis`: a switch on `language.toLowerCase()`
routing to exactly one strategy; any other tag resolves immediately with
the unsupported-language failure (note the error message interpolates the
ORIGINAL tag), touching no subprocess, temp file or external call. -/
def runCodeAnalysis (code language : String) (es : ESLintEnv) (py : PylintEnv)
    (cp : CppEnv) (ai : AIEnv) (tmpdir now : String) (unlinkOk : Bool) : RunOutcome :=
  let l := jsToLowerCase language
  if l == "javascript" then runEsLintAnalysis code es ai
  else if l == "python" then runPylintAnalysis code tmpdir now py unlinkOk
  else if l == "c++" || l == "cpp" then runCppAnalysis code tmpdir now cp unlinkOk
  else
    { result := .resolved
        { success := false
          error := some ("Unsupported language for debugging: " ++ language ++ ".") } }

/-! ## Specification-side definition for claim C8

The claim (and spec §4.2) describes the explanation lookup as: exact
rule-identifier match first, OTHERWISE a substring match of the message
against the table keys, generic fallback only if neither matches.  This
definition follows those words so it can be compared with
`lookupExplanation`, which is translated from the source. -/

/-- Modelled from the spec: substring scan of the message against the
table keys, first matching entry wins, generic fallback otherwise. -/
def substringScanSpec (message : String) : ExplanationEntry :=
  match errorExplanations.find? (fun p => jsIncludes message p.1) with
  | some p => p.2
  | none => genericExplanationEntry

/-- Modelled from the spec: exact rule-id lookup first, substring
fallback on the message whenever the exact lookup fails. -/
def lookupExplanationSpec (ruleId : Option String) (message : String) : ExplanationEntry :=
  match ruleId with
  | some r =>
    match tableLookup r with
    | some e => e
    | none => substringScanSpec message
  | none => substringScanSpec message

/-! ## Supporting lemmas -/

theorem append_left_ne_empty (s t : String) (h : s ≠ "") : s ++ t ≠ "" := by
  intro he
  apply h
  have hd := congrArg String.data he
  rw [String.data_append] at hd
  have h1 : s.data = [] := (List.append_eq_nil.mp hd).1
  cases s
  simp_all

theorem getAIExplanation_ok_of_severities (ai : AIEnv) (code lang : String)
    (msgs : List Diag) (h : ∀ m ∈ msgs, (m.severity).isSome = true) :
    ∃ f, getAIExplanation ai code lang msgs = Except.ok f := by
  have hany : (msgs.any fun m => m.severity.isNone) = false := by
    simp only [List.any_eq_false]
    intro m hm
    have hs := h m hm
    cases hsev : m.severity <;> simp_all
  cases hc : ai.configured with
  | false => exact ⟨{}, by simp [getAIExplanation, hc]⟩
  | true =>
    cases hcall : ai.call with
    | fails => exact ⟨{}, by simp [getAIExplanation, hc, hany, hcall]⟩
    | succeeds f => exact ⟨f, by simp [getAIExplanation, hc, hany, hcall]⟩

theorem classifyGccLine_severity_isSome (line : String) :
    ∀ d ∈ classifyGccLine line, (d.severity).isSome = true := by
  intro d hd
  unfold classifyGccLine at hd
  rcases hm : matchGccLine line with _ | ⟨p, l, c, sev, msg⟩ <;> rw [hm] at hd
  · by_cases he : jsIncludes line "error:" = true
    · simp [he] at hd; subst hd; rfl
    · by_cases hw : jsIncludes line "warning:" = true
      · simp [he, hw] at hd; subst hd; rfl
      · simp [he, hw] at hd
  · simp at hd; subst hd; rfl

theorem parseGccStderr_severity_isSome (stderr : String) :
    ∀ d ∈ parseGccStderr stderr, (d.severity).isSome = true := by
  intro d hd
  unfold parseGccStderr at hd
  rcases List.mem_flatMap.mp hd with ⟨line, _, hdl⟩
  exact classifyGccLine_severity_isSome line d hdl

theorem lookupExplanation_ne_empty (rid : Option String) (msg : String) :
    (lookupExplanation rid msg).explanation ≠ ""
    ∧ (lookupExplanation rid msg).suggestion ≠ "" := by
  have htable : ∀ p ∈ errorExplanations, p.2.explanation ≠ "" ∧ p.2.suggestion ≠ "" := by
    decide
  have hgen : genericExplanationEntry.explanation ≠ ""
      ∧ genericExplanationEntry.suggestion ≠ "" := by decide
  unfold lookupExplanation
  by_cases ht : jsTruthy rid = true
  · rw [if_pos ht]
    cases rid with
    | none => exact hgen
    | some r =>
      cases hf : tableLookup r with
      | none => simpa [hf] using hgen
      | some e =>
        have : (errorExplanations.find? (fun p => p.1 == r)).map (fun p => p.2) = some e := hf
        rcases Option.map_eq_some'.mp this with ⟨p, hp, hpe⟩
        have hmem := List.mem_of_find?_eq_some hp
        simpa [hf, ← hpe] using htable p hmem
  · rw [if_neg ht]
    cases hf : errorExplanations.find? (fun p => jsIncludes msg p.1) with
    | none => simpa [hf] using hgen
    | some p =>
      have hmem := List.mem_of_find?_eq_some hf
      simpa [hf] using htable p hmem

/-! ## Claim theorems -/

/-- Claim C2 (code bug evidence): the augmenter returns all-null without
throwing when the API key is missing, but when the key IS configured the
prompt construction — which lives before the internal try/catch —
dereferences `msg.severity` on pylint diagnostics that carry no severity
field, so `getAIExplanation` rejects; that rejection is caught by the
pylint strategy's `catch (parseError)`, so the result flips to
success=false with the parse-failure message instead of leaving success
and diagnostics unchanged with null AI fields, contradicting the claim. -/
theorem C2_pylint_ai_rejection_flips_success :
    (getAIExplanation ⟨false, .fails⟩ "x = 1" "python"
        [pylintDiag ⟨"convention", "m", "missing-docstring", "Missing docstring", 1, 0, none, none⟩]
      = Except.ok {})
    ∧ (getAIExplanation ⟨true, .succeeds ⟨some "e", some "s", some "f"⟩⟩ "x = 1" "python"
        [pylintDiag ⟨"convention", "m", "missing-docstring", "Missing docstring", 1, 0, none, none⟩]
      = Except.error "TypeError: Cannot read properties of undefined (reading toUpperCase)")
    ∧ ((runPylintAnalysis "x = 1" "/tmp" "0"
          (.closed 0 "[\x7b\"type\": \"convention\"\x7d]" ""
            (.ok [⟨"convention", "m", "missing-docstring", "Missing docstring", 1, 0, none, none⟩])
            ⟨true, .succeeds ⟨some "e", some "s", some "f"⟩⟩) true).result
        = .resolved { success := false
                      error := some "Failed to parse Pylint output."
                      details := some "[\x7b\"type\": \"convention\"\x7d]" }) := by
  exact ⟨rfl, rfl, rfl⟩

/-- Claim C9: for the in-process JavaScript strategy, a lint run with zero
violations (and hence no auto-fix output from the library) resolves with
success=true, `fixedCode` equal to the input code, an empty diagnostics
list, and all three AI-derived fields null; the Explanation Augmenter is
never invoked. -/
theorem C9_clean_js_roundtrip (code : String) (ai : AIEnv) :
    runEsLintAnalysis code (.lintOk [{ messages := [], output := none }]) ai
      = { result := .resolved
            { success := true
              analysis := some [⟨"<text>", []⟩]
              fixedCode := some code } } := by
  rfl

/-- Claim C4: `runCodeAnalysis` lowercases the language tag and routes to
exactly one strategy for javascript, python, and the c-family tags; any
other tag resolves immediately with success=false and the
unsupported-language message, with no subprocess spawned, no temp file
written, and no external call made. -/
theorem C4_dispatch (code language : String) (es : ESLintEnv) (py : PylintEnv)
    (cp : CppEnv) (ai : AIEnv) (tmpdir now : String) (u : Bool) :
    (jsToLowerCase language = "javascript" →
      runCodeAnalysis code language es py cp ai tmpdir now u = runEsLintAnalysis code es ai)
    ∧ (jsToLowerCase language = "python" →
      runCodeAnalysis code language es py cp ai tmpdir now u
        = runPylintAnalysis code tmpdir now py u)
    ∧ (jsToLowerCase language = "c++" ∨ jsToLowerCase language = "cpp" →
      runCodeAnalysis code language es py cp ai tmpdir now u
        = runCppAnalysis code tmpdir now cp u)
    ∧ (jsToLowerCase language ≠ "javascript" → jsToLowerCase language ≠ "python" →
       jsToLowerCase language ≠ "c++" → jsToLowerCase language ≠ "cpp" →
      runCodeAnalysis code language es py cp ai tmpdir now u
        = { result := .resolved
              { success := false
                error := some ("Unsupported language for debugging: " ++ language ++ ".") } }) := by
  refine ⟨?_, ?_, ?_, ?_⟩
  · intro h; simp [runCodeAnalysis, h]
  · intro h; simp [runCodeAnalysis, h]
  · rintro (h | h) <;> simp [runCodeAnalysis, h]
  · intro h1 h2 h3 h4; simp [runCodeAnalysis, h1, h2, h3, h4]

/-- Witness for C4 at concrete mixed-case tags. -/
theorem C4_witness :
    (jsToLowerCase "JavaScript" = "javascript"
      ∧ runCodeAnalysis "let x" "JavaScript" (.lintOk []) (.setupFails "s")
          (.setupFails "s") ⟨false, .fails⟩ "/tmp" "0" true
        = runEsLintAnalysis "let x" (.lintOk []) ⟨false, .fails⟩)
    ∧ (jsToLowerCase "Ruby" ≠ "javascript"
      ∧ runCodeAnalysis "puts 1" "Ruby" (.lintOk []) (.setupFails "s")
          (.setupFails "s") ⟨false, .fails⟩ "/tmp" "0" true
        = { result := .resolved
              { success := false
                error := some ("Unsupported language for debugging: " ++ "Ruby" ++ ".") } }) := by
  constructor
  · exact ⟨by decide, (C4_dispatch "let x" "JavaScript" (.lintOk []) (.setupFails "s")
      (.setupFails "s") ⟨false, .fails⟩ "/tmp" "0" true).1 (by decide)⟩
  · exact ⟨by decide, (C4_dispatch "puts 1" "Ruby" (.lintOk []) (.setupFails "s")
      (.setupFails "s") ⟨false, .fails⟩ "/tmp" "0" true).2.2.2
      (by decide) (by decide) (by decide) (by decide)⟩

theorem runPylint_srcUnlink (code tmpdir now : String) (env : PylintEnv) (u : Bool) :
    (runPylintAnalysis code tmpdir now env u).srcUnlinkCalled = true := by
  cases env with
  | setupFails e => rfl
  | spawnError e => rfl
  | closed ec stdout stderr parsed ai =>
    unfold runPylintAnalysis
    dsimp only
    repeat' split
    all_goals rfl

theorem runCpp_srcUnlink (code tmpdir now : String) (env : CppEnv) (u : Bool) :
    (runCppAnalysis code tmpdir now env u).srcUnlinkCalled = true := by
  cases env with
  | setupFails e => rfl
  | spawnError e => rfl
  | closed ec stderr exeExists ai =>
    unfold runCppAnalysis
    dsimp only
    repeat' split
    all_goals rfl

theorem runCpp_exeUnlink_of_exists (code tmpdir now : String) (ec : Int) (st : String)
    (ai : AIEnv) (u : Bool) :
    (runCppAnalysis code tmpdir now (.closed ec st true ai) u).exeUnlinkCalled = true := by
  unfold runCppAnalysis
  dsimp only
  repeat' split
  all_goals simp

/-- Claim C3: both subprocess strategies unlink their temp source file on
every exit path (setup failure, spawn failure, process close) before the
promise settles; the C-family strategy also unlinks the compiled artifact
whenever it is present (and on the spawn-failure and setup-failure
paths); the result never depends on whether the unlink succeeds; and a
spawn failure surfaces as a rejected promise, never as a resolved
success=false result. -/
theorem C3_temp_cleanup (code tmpdir now : String) (py : PylintEnv) (cp : CppEnv)
    (u u' : Bool) (e : String) (ec : Int) (st : String) (ai : AIEnv) :
    (runPylintAnalysis code tmpdir now py u).srcUnlinkCalled = true
    ∧ runPylintAnalysis code tmpdir now py u = runPylintAnalysis code tmpdir now py u'
    ∧ (runCppAnalysis code tmpdir now cp u).srcUnlinkCalled = true
    ∧ runCppAnalysis code tmpdir now cp u = runCppAnalysis code tmpdir now cp u'
    ∧ (runCppAnalysis code tmpdir now (.closed ec st true ai) u).exeUnlinkCalled = true
    ∧ (runCppAnalysis code tmpdir now (.spawnError e) u).exeUnlinkCalled = true
    ∧ (runCppAnalysis code tmpdir now (.setupFails e) u).exeUnlinkCalled = true
    ∧ (runPylintAnalysis code tmpdir now (.spawnError e) u).result
        = .rejected ("Failed to run Pylint: " ++ e ++ ". Is Pylint installed and in your PATH?")
    ∧ (runCppAnalysis code tmpdir now (.spawnError e) u).result
        = .rejected ("Failed to run g++: " ++ e ++ ". Is g++ installed and in your PATH?")
    ∧ (∀ r, (runPylintAnalysis code tmpdir now (.spawnError e) u).result ≠ .resolved r)
    ∧ (∀ r, (runCppAnalysis code tmpdir now (.spawnError e) u).result ≠ .resolved r) := by
  refine ⟨runPylint_srcUnlink code tmpdir now py u, rfl,
    runCpp_srcUnlink code tmpdir now cp u, rfl,
    runCpp_exeUnlink_of_exists code tmpdir now ec st ai u, rfl, rfl, rfl, rfl, ?_, ?_⟩
  · intro r h; exact Settled.noConfusion h
  · intro r h; exact Settled.noConfusion h

/-- Witness for C3 at concrete inputs. -/
theorem C3_witness :
    (runPylintAnalysis "x" "/tmp" "7" (.spawnError "ENOENT") true).srcUnlinkCalled = true
    ∧ (runPylintAnalysis "x" "/tmp" "7" (.spawnError "ENOENT") true).result
        = .rejected ("Failed to run Pylint: " ++ "ENOENT" ++ ". Is Pylint installed and in your PATH?")
    ∧ (runPylintAnalysis "x" "/tmp" "7" (.spawnError "ENOENT") true).result
        ≠ .resolved { success := false } := by
  have h := C3_temp_cleanup "x" "/tmp" "7" (.spawnError "ENOENT") (.spawnError "ENOENT")
    true true "ENOENT" 0 "" ⟨false, .fails⟩
  exact ⟨h.1, h.2.2.2.2.2.2.2.1, h.2.2.2.2.2.2.2.2.2.1 { success := false }⟩

/-- Claim C5: the pylint close handler's cascade — tool-not-installed
signature short-circuits with the installation message without consulting
the parsed stdout; otherwise non-empty stderr with empty stdout fails
with stderr's (trimmed) content in the error; otherwise stdout is parsed
as a JSON array, treated as the empty array when stdout is empty; a JSON
parse failure resolves success=false with the raw stdout attached as
details; a successful parse yields the diagnostics with generically
synthesized explanation/suggestion strings. -/
theorem C5_pylint_close_cascade (code tmpdir now : String) (ec : Int)
    (stdout stderr : String) (parsed parsed' : Except String (List PylintMsg))
    (ai : AIEnv) (u : Bool) (pe : String) (msgs : List PylintMsg) :
    (pylintNotInstalledSig stderr = true → stderr ≠ "" →
      runPylintAnalysis code tmpdir now (.closed ec stdout stderr parsed ai) u
          = runPylintAnalysis code tmpdir now (.closed ec stdout stderr parsed' ai) u
        ∧ (runPylintAnalysis code tmpdir now (.closed ec stdout stderr parsed ai) u).result
          = .resolved
              { success := false
                error := some "Pylint is not installed or not in your system\u0027s PATH. Please install it (e.g., \u0027pip install pylint\u0027)." })
    ∧ (pylintNotInstalledSig stderr = false → stderr ≠ "" → stdout = "" →
      (runPylintAnalysis code tmpdir now (.closed ec stdout stderr parsed ai) u).result
        = .resolved
            { success := false
              error := some ("Pylint encountered an error: " ++ jsTrim stderr) })
    ∧ (stderr = "" → stdout = "" →
      (runPylintAnalysis code tmpdir now (.closed ec stdout stderr parsed ai) u).result
        = .resolved
            { success := true
              analysis := some [⟨"<text>", []⟩]
              fixedCode := some code })
    ∧ (pylintNotInstalledSig stderr = false → stdout ≠ "" → parsed = .error pe →
      (runPylintAnalysis code tmpdir now (.closed ec stdout stderr parsed ai) u).result
        = .resolved
            { success := false
              error := some "Failed to parse Pylint output."
              details := some stdout })
    ∧ (pylintNotInstalledSig stderr = false → stdout ≠ "" → parsed = .ok msgs →
        msgs ≠ [] → ai.configured = false →
      (runPylintAnalysis code tmpdir now (.closed ec stdout stderr parsed ai) u).result
        = .resolved
            { success := true
              analysis := some [⟨"<text>", msgs.map pylintDiag⟩]
              fixedCode := some code })
    ∧ (∀ m : PylintMsg,
        (pylintDiag m).errorExplanation
          = some ("Pylint found a \u0027" ++ m.type ++ "\u0027 type issue: " ++ m.message ++ ".")
        ∧ (pylintDiag m).errorSuggestion
          = some ("Review the Python code at line " ++ toString m.line ++ ", column "
              ++ toString m.column ++ ". Consult Pylint documentation for rule \u0027"
              ++ m.symbol ++ "\u0027.")) := by
  refine ⟨?_, ?_, ?_, ?_, ?_, fun m => ⟨rfl, rfl⟩⟩
  · intro hsig hne
    constructor <;>
      (unfold runPylintAnalysis; dsimp only; simp [bne_iff_ne, hne, hsig])
  · intro hsig hne hout
    unfold runPylintAnalysis; dsimp only
    simp [bne_iff_ne, hne, hsig, hout]
  · intro hne hout
    unfold runPylintAnalysis; dsimp only
    simp [hne, hout]
  · intro hsig hout hparse
    unfold runPylintAnalysis; dsimp only
    simp [bne_iff_ne, hsig, hout, hparse, jsOr3]
  · intro hsig hout hparse hm hai
    unfold runPylintAnalysis; dsimp only
    simp [bne_iff_ne, hsig, hout, hparse, hm, getAIExplanation, hai, List.length_pos]

/-- Witness for C5 at concrete close events. -/
theorem C5_witness :
    (pylintNotInstalledSig "command not found: pylint" = true
      ∧ (runPylintAnalysis "x" "/t" "1"
            (.closed 1 "" "command not found: pylint" (.ok []) ⟨false, .fails⟩) true).result
          = .resolved
              { success := false
                error := some "Pylint is not installed or not in your system\u0027s PATH. Please install it (e.g., \u0027pip install pylint\u0027)." })
    ∧ ((runPylintAnalysis "x" "/t" "1"
            (.closed 0 "oops" "" (.error "Unexpected token o") ⟨false, .fails⟩) true).result
          = .resolved
              { success := false
                error := some "Failed to parse Pylint output."
                details := some "oops" })
    ∧ ((runPylintAnalysis "x" "/t" "1"
            (.closed 0 "[m]" "" (.ok [⟨"error", "m", "e", "bad", 2, 3, none, none⟩])
              ⟨false, .fails⟩) true).result
          = .resolved
              { success := true
                analysis := some [⟨"<text>",
                  [(⟨"error", "m", "e", "bad", 2, 3, none, none⟩ : PylintMsg)].map pylintDiag⟩]
                fixedCode := some "x" }) := by
  refine ⟨⟨by decide, ?_⟩, ?_, ?_⟩
  · exact ((C5_pylint_close_cascade "x" "/t" "1" 1 "" "command not found: pylint"
      (.ok []) (.ok []) ⟨false, .fails⟩ true "pe" []).1 (by decide) (by decide)).2
  · exact (C5_pylint_close_cascade "x" "/t" "1" 0 "oops" ""
      (.error "Unexpected token o") (.ok []) ⟨false, .fails⟩ true "Unexpected token o"
      []).2.2.2.1 (by decide) (by decide) rfl
  · exact (C5_pylint_close_cascade "x" "/t" "1" 0 "[m]" ""
      (.ok [⟨"error", "m", "e", "bad", 2, 3, none, none⟩]) (.ok []) ⟨false, .fails⟩ true "pe"
      [⟨"error", "m", "e", "bad", 2, 3, none, none⟩]).2.2.2.2.1
      (by decide) (by decide) rfl (by decide) rfl

/-- Claim C6: every stderr line matching the location regex yields exactly
one located diagnostic carrying the parsed captures; every non-matching
line containing `error:` (resp. `warning:`) yields exactly one unlocated
diagnostic with line=0, column=0, the corresponding severity and the
trimmed line as message; and on the stderr line
`foo.cpp: In function 'main': error: expected ';'` the full C-family
strategy resolves with exactly one such unlocated error diagnostic. -/
theorem C6_gcc_line_policy (line p : String) (l c : Nat) (sev msg : String) :
    (matchGccLine line = some (p, l, c, sev, msg) →
      classifyGccLine line
        = [{ filePath := some p, line := l, column := c, severity := some sev,
             message := msg, ruleId := some "g++-compilation" }])
    ∧ (matchGccLine line = none → jsIncludes line "error:" = true →
      classifyGccLine line
        = [{ filePath := some "<text>", line := 0, column := 0, severity := some "error",
             message := jsTrim line, ruleId := some "g++-compilation" }])
    ∧ (matchGccLine line = none → jsIncludes line "error:" = false →
        jsIncludes line "warning:" = true →
      classifyGccLine line
        = [{ filePath := some "<text>", line := 0, column := 0, severity := some "warning",
             message := jsTrim line, ruleId := some "g++-compilation" }])
    ∧ ((runCppAnalysis "int main() \x7b return 0 \x7d" "/tmp" "1700000000000"
          (.closed 1 "foo.cpp: In function \u0027main\u0027: error: expected \u0027;\u0027" false
            ⟨false, .fails⟩) true).result
        = .resolved
            { success := true
              analysis := some [⟨"<text>",
                [{ filePath := some "<text>", line := 0, column := 0,
                   severity := some "error",
                   message := "foo.cpp: In function \u0027main\u0027: error: expected \u0027;\u0027",
                   ruleId := some "g++-compilation" }]⟩]
              fixedCode := some "int main() \x7b return 0 \x7d" }) := by
  refine ⟨?_, ?_, ?_, by decide⟩
  · intro h; simp [classifyGccLine, h]
  · intro h he; simp [classifyGccLine, h, he]
  · intro h he hw; simp [classifyGccLine, h, he, hw]

/-- Witness for C6 at concrete stderr lines. -/
theorem C6_witness :
    (matchGccLine "/tmp/a.cpp:3:5: warning: unused variable"
        = some ("/tmp/a.cpp", 3, 5, "warning", "unused variable")
      ∧ classifyGccLine "/tmp/a.cpp:3:5: warning: unused variable"
        = [{ filePath := some "/tmp/a.cpp", line := 3, column := 5,
             severity := some "warning", message := "unused variable",
             ruleId := some "g++-compilation" }])
    ∧ (matchGccLine "collect2: error: ld returned 1 exit status" = none
      ∧ classifyGccLine "collect2: error: ld returned 1 exit status"
        = [{ filePath := some "<text>", line := 0, column := 0, severity := some "error",
             message := jsTrim "collect2: error: ld returned 1 exit status",
             ruleId := some "g++-compilation" }]) := by
  constructor
  · exact ⟨by decide, (C6_gcc_line_policy "/tmp/a.cpp:3:5: warning: unused variable"
      "/tmp/a.cpp" 3 5 "warning" "unused variable").1 (by decide)⟩
  · exact ⟨by decide, (C6_gcc_line_policy "collect2: error: ld returned 1 exit status"
      "" 0 0 "" "").2.1 (by decide) (by decide)⟩

/-- Claim C7: outside the tool-not-installed short-circuit, the C-family
close handler invokes the Explanation Augmenter exactly when at least one
diagnostic was parsed or the exit code is nonzero; it always resolves
with success=true; and the returned fixedCode is always the input code. -/
theorem C7_cpp_close (code tmpdir now : String) (ec : Int) (stderr : String)
    (ex : Bool) (ai : AIEnv) (u : Bool)
    (hsig : gccNotInstalledSig stderr = false) :
    ((runCppAnalysis code tmpdir now (.closed ec stderr ex ai) u).aiInvoked = true
      ↔ (parseGccStderr stderr ≠ [] ∨ ec ≠ 0))
    ∧ ∃ r, (runCppAnalysis code tmpdir now (.closed ec stderr ex ai) u).result
          = .resolved r
        ∧ r.success = true
        ∧ r.fixedCode = some code
        ∧ r.analysis = some [⟨"<text>", parseGccStderr stderr⟩] := by
  have hemp : parseGccStderr "" = [] := by decide
  have hfmt : (if stderr != "" then parseGccStderr stderr else []) = parseGccStderr stderr := by
    by_cases h : stderr = ""
    · simp [h, hemp]
    · simp [bne_iff_ne, h]
  obtain ⟨f, hf⟩ := getAIExplanation_ok_of_severities ai code "c++" (parseGccStderr stderr)
    (parseGccStderr_severity_isSome stderr)
  have hsig' : (stderr != "" && gccNotInstalledSig stderr) = false := by
    rw [hsig, Bool.and_false]
  by_cases hnil : parseGccStderr stderr = [] <;> by_cases hec : ec = 0
  · have hb : (decide ((parseGccStderr stderr).length > 0) || (ec != 0)) = false := by
      simp [hnil, hec]
    constructor
    · unfold runCppAnalysis; dsimp only
      rw [hfmt, hsig', hb]
      simp [hnil, hec]
    · refine ⟨{ success := true
                analysis := some [⟨"<text>", parseGccStderr stderr⟩]
                fixedCode := some code }, ?_, rfl, rfl, rfl⟩
      unfold runCppAnalysis; dsimp only
      rw [hfmt, hsig', hb]
      simp
  · have hb : (decide ((parseGccStderr stderr).length > 0) || (ec != 0)) = true := by
      simp [bne_iff_ne, hec]
    constructor
    · unfold runCppAnalysis; dsimp only
      rw [hfmt, hsig', hb]
      simp [hf, hec]
    · refine ⟨{ success := true
                analysis := some [⟨"<text>", parseGccStderr stderr⟩]
                fixedCode := some code
                aiFixedCode := f.aiFixedCode
                aiExplanation := f.aiExplanation
                aiSuggestion := f.aiSuggestion }, ?_, rfl, rfl, rfl⟩
      unfold runCppAnalysis; dsimp only
      rw [hfmt, hsig', hb]
      simp [hf]
  · have hb : (decide ((parseGccStderr stderr).length > 0) || (ec != 0)) = true := by
      have hpos := List.length_pos.mpr hnil
      simp [hpos]
    constructor
    · unfold runCppAnalysis; dsimp only
      rw [hfmt, hsig', hb]
      simp [hf, hnil]
    · refine ⟨{ success := true
                analysis := some [⟨"<text>", parseGccStderr stderr⟩]
                fixedCode := some code
                aiFixedCode := f.aiFixedCode
                aiExplanation := f.aiExplanation
                aiSuggestion := f.aiSuggestion }, ?_, rfl, rfl, rfl⟩
      unfold runCppAnalysis; dsimp only
      rw [hfmt, hsig', hb]
      simp [hf]
  · have hb : (decide ((parseGccStderr stderr).length > 0) || (ec != 0)) = true := by
      have hpos := List.length_pos.mpr hnil
      simp [hpos]
    constructor
    · unfold runCppAnalysis; dsimp only
      rw [hfmt, hsig', hb]
      simp [hf, hnil]
    · refine ⟨{ success := true
                analysis := some [⟨"<text>", parseGccStderr stderr⟩]
                fixedCode := some code
                aiFixedCode := f.aiFixedCode
                aiExplanation := f.aiExplanation
                aiSuggestion := f.aiSuggestion }, ?_, rfl, rfl, rfl⟩
      unfold runCppAnalysis; dsimp only
      rw [hfmt, hsig', hb]
      simp [hf]

/-- Witness for C7 at a concrete close event with one parsed error. -/
theorem C7_witness :
    gccNotInstalledSig "a.cpp:1:2: error: boom" = false
    ∧ ((runCppAnalysis "int m;" "/tmp" "5"
          (.closed 1 "a.cpp:1:2: error: boom" false ⟨false, .fails⟩) true).aiInvoked = true
        ↔ (parseGccStderr "a.cpp:1:2: error: boom" ≠ [] ∨ (1 : Int) ≠ 0)) := by
  exact ⟨by decide, (C7_cpp_close "int m;" "/tmp" "5" 1 "a.cpp:1:2: error: boom"
    false ⟨false, .fails⟩ true (by decide)).1⟩

theorem gccSevTail_spec {r : List Char} {s : String} {rest : List Char}
    (h : gccSevTail r = some (s, rest)) : s = "error" ∨ s = "warning" := by
  unfold gccSevTail at h
  repeat' split at h
  all_goals first
    | (simp only [Option.some.injEq, Prod.mk.injEq] at h; exact Or.inl h.1.symm)
    | (simp only [Option.some.injEq, Prod.mk.injEq] at h; exact Or.inr h.1.symm)
    | simp at h

theorem gccTryRest_spec {rest : List Char} {l c : Nat} {s m : String}
    (h : gccTryRest rest = some (l, c, s, m)) : s = "error" ∨ s = "warning" := by
  unfold gccTryRest at h
  dsimp only at h
  repeat' split at h
  all_goals first
    | (rename_i x1 sev r6 hsev x2 g hbest
       simp only [Option.some.injEq, Prod.mk.injEq] at h
       exact h.2.2.1 ▸ gccSevTail_spec hsev)
    | simp at h

theorem gccScanAux_spec (rest : List Char) : ∀ (pre : List Char) (p : String)
    (l c : Nat) (s m : String), gccScanAux pre rest = some (p, l, c, s, m) →
    s = "error" ∨ s = "warning" := by
  induction rest with
  | nil => intro pre p l c s m h; simp [gccScanAux] at h
  | cons ch rs ih =>
    intro pre p l c s m h
    unfold gccScanAux at h
    split at h
    · split at h
      · rename_i lr colr sevr msgr htr
        simp only [Option.some.injEq, Prod.mk.injEq] at h
        exact h.2.2.2.1 ▸ gccTryRest_spec htr
      · exact ih _ _ _ _ _ _ h
    · split at h
      · exact ih _ _ _ _ _ _ h
      · simp at h

theorem matchGccLine_spec {line p : String} {l c : Nat} {s m : String}
    (h : matchGccLine line = some (p, l, c, s, m)) : s = "error" ∨ s = "warning" := by
  exact gccScanAux_spec line.data [] p l c s m h

theorem classifyGccLine_fields (line : String) :
    ∀ d ∈ classifyGccLine line,
      (d.severity = some "error" ∨ d.severity = some "warning")
      ∧ d.errorExplanation = none ∧ d.errorSuggestion = none := by
  intro d hd
  unfold classifyGccLine at hd
  rcases hm : matchGccLine line with _ | ⟨p, l, c, sev, msg⟩ <;> rw [hm] at hd
  · by_cases he : jsIncludes line "error:" = true
    · simp [he] at hd; subst hd; exact ⟨Or.inl rfl, rfl, rfl⟩
    · by_cases hw : jsIncludes line "warning:" = true
      · simp [he, hw] at hd; subst hd; exact ⟨Or.inr rfl, rfl, rfl⟩
      · simp [he, hw] at hd
  · simp at hd; subst hd
    refine ⟨?_, rfl, rfl⟩
    rcases matchGccLine_spec hm with h | h
    · exact Or.inl (by simp [h])
    · exact Or.inr (by simp [h])

/-- Claim C1 (amended): ESLint diagnostics carry severity exactly
`error`/`warning` and non-empty explanation/suggestion strings, with the
generic fallback pair substituted when no table entry matches; pylint
diagnostics carry non-empty generically synthesized explanation and
suggestion strings but NO severity field at all (only the tool's `type`);
g++ diagnostics carry severity exactly `error`/`warning` but NO
explanation or suggestion fields at all. -/
theorem C1_diag_fields (m : ESLintMsg) (pm : PylintMsg) (line : String) (d : Diag)
    (rid : Option String) (msg2 : String)
    (hd : d ∈ classifyGccLine line)
    (hnone : errorExplanations.find? (fun p => jsIncludes msg2 p.1) = none) :
    ((formatEslintMsg m).severity = some "error" ∨ (formatEslintMsg m).severity = some "warning")
    ∧ (∃ s, (formatEslintMsg m).errorExplanation = some s ∧ s ≠ "")
    ∧ (∃ s, (formatEslintMsg m).errorSuggestion = some s ∧ s ≠ "")
    ∧ (pylintDiag pm).severity = none
    ∧ (∃ s, (pylintDiag pm).errorExplanation = some s ∧ s ≠ "")
    ∧ (∃ s, (pylintDiag pm).errorSuggestion = some s ∧ s ≠ "")
    ∧ ((d.severity = some "error" ∨ d.severity = some "warning")
        ∧ d.errorExplanation = none ∧ d.errorSuggestion = none)
    ∧ (jsTruthy rid = false → lookupExplanation rid msg2 = genericExplanationEntry) := by
  refine ⟨?_, ?_, ?_, rfl, ?_, ?_, classifyGccLine_fields line d hd, ?_⟩
  · cases hs : (m.severity == 2) <;> simp [formatEslintMsg, hs]
  · exact ⟨(lookupExplanation m.ruleId m.message).explanation, rfl,
      (lookupExplanation_ne_empty m.ruleId m.message).1⟩
  · exact ⟨(lookupExplanation m.ruleId m.message).suggestion, rfl,
      (lookupExplanation_ne_empty m.ruleId m.message).2⟩
  · refine ⟨_, rfl, ?_⟩
    exact append_left_ne_empty _ _ (append_left_ne_empty _ _
      (append_left_ne_empty _ _ (append_left_ne_empty _ _ (by decide))))
  · refine ⟨_, rfl, ?_⟩
    exact append_left_ne_empty _ _ (append_left_ne_empty _ _ (append_left_ne_empty _ _
      (append_left_ne_empty _ _ (append_left_ne_empty _ _
        (append_left_ne_empty _ _ (by decide))))))
  · intro ht
    simp [lookupExplanation, ht, hnone]

/-- Counterexample for C1 as stated: a pylint-produced diagnostic reaches
the resolved result with NO severity field (the strategy never sets one),
and a g++-produced located diagnostic reaches the resolved result with NO
explanation/suggestion fields, so not every diagnostic has severity
`error`/`warning` together with non-empty explanation and suggestion. -/
theorem C1_counterexample :
    ((runPylintAnalysis "x = 1" "/tmp" "0"
        (.closed 0 "[\x7b\x7d]" "" (.ok [⟨"convention", "m", "s", "msg", 1, 0, none, none⟩])
          ⟨false, .fails⟩) true).result
      = .resolved
          { success := true
            analysis := some [⟨"<text>",
              [pylintDiag ⟨"convention", "m", "s", "msg", 1, 0, none, none⟩]⟩]
            fixedCode := some "x = 1" })
    ∧ (pylintDiag ⟨"convention", "m", "s", "msg", 1, 0, none, none⟩).severity = none
    ∧ ((runCppAnalysis "int m" "/tmp" "0"
        (.closed 1 "a.cpp:1:2: error: boom" false ⟨false, .fails⟩) true).result
      = .resolved
          { success := true
            analysis := some [⟨"<text>",
              [{ filePath := some "a.cpp", line := 1, column := 2, severity := some "error",
                 message := "boom", ruleId := some "g++-compilation" }]⟩]
            fixedCode := some "int m" })
    ∧ ({ filePath := some "a.cpp", line := 1, column := 2, severity := some "error",
         message := "boom", ruleId := some "g++-compilation" } : Diag).errorExplanation
        = none := by
  exact ⟨by decide, rfl, by decide, rfl⟩

/-- Witness for C1 at concrete diagnostics of each strategy. -/
theorem C1_witness :
    ({ filePath := some "x.cpp", line := 1, column := 2, severity := some "warning",
       message := "unused", ruleId := some "g++-compilation" } : Diag)
        ∈ classifyGccLine "x.cpp:1:2: warning: unused"
    ∧ errorExplanations.find? (fun p => jsIncludes "zzz" p.1) = none
    ∧ ((formatEslintMsg ⟨some "semi", 2, "Missing semicolon.", 1, 5, none, []⟩).severity
          = some "error"
        ∨ (formatEslintMsg ⟨some "semi", 2, "Missing semicolon.", 1, 5, none, []⟩).severity
          = some "warning")
    ∧ (pylintDiag ⟨"error", "mod", "syntax-error", "invalid syntax", 3, 7, none, none⟩).severity
        = none := by
  refine ⟨by decide, by decide, ?_, ?_⟩
  · exact (C1_diag_fields ⟨some "semi", 2, "Missing semicolon.", 1, 5, none, []⟩
      ⟨"error", "mod", "syntax-error", "invalid syntax", 3, 7, none, none⟩
      "x.cpp:1:2: warning: unused"
      { filePath := some "x.cpp", line := 1, column := 2, severity := some "warning",
        message := "unused", ruleId := some "g++-compilation" }
      none "zzz" (by decide) (by decide)).1
  · exact (C1_diag_fields ⟨some "semi", 2, "Missing semicolon.", 1, 5, none, []⟩
      ⟨"error", "mod", "syntax-error", "invalid syntax", 3, 7, none, none⟩
      "x.cpp:1:2: warning: unused"
      { filePath := some "x.cpp", line := 1, column := 2, severity := some "warning",
        message := "unused", ruleId := some "g++-compilation" }
      none "zzz" (by decide) (by decide)).2.2.2.1

/-- Counterexample for C8 as stated: for a diagnostic whose rule id is
non-empty but absent from the table and whose message contains the table
key `Missing semicolon`, the spec-worded lookup (exact match, then
substring fallback) picks the `Missing semicolon` entry, but the source's
lookup — whose substring loop is guarded by `!msg.ruleId` — returns the
generic pair instead. -/
theorem C8_counterexample :
    lookupExplanation (some "ghost-rule") "Missing semicolon at end of statement"
      ≠ lookupExplanationSpec (some "ghost-rule") "Missing semicolon at end of statement"
    ∧ lookupExplanation (some "ghost-rule") "Missing semicolon at end of statement"
      = genericExplanationEntry
    ∧ lookupExplanationSpec (some "ghost-rule") "Missing semicolon at end of statement"
      ≠ genericExplanationEntry := by
  exact ⟨by decide, by decide, by decide⟩

/-- Claim C8 (amended): the ESLint strategy picks the explanation pair by
exact rule-id lookup when the rule id is non-empty and present in the
table; when the rule id is falsy (absent or empty) it falls back to a
first-match substring scan of the message over the table keys; but a
non-empty rule id that is NOT in the table yields the generic pair
directly — the substring fallback is never attempted for diagnostics
that carry a rule identifier. -/
theorem C8_lookup_rules (m : ESLintMsg) (r : String) (e : ExplanationEntry)
    (message : String) :
    ((formatEslintMsg m).errorExplanation
        = some (lookupExplanation m.ruleId m.message).explanation
      ∧ (formatEslintMsg m).errorSuggestion
        = some (lookupExplanation m.ruleId m.message).suggestion)
    ∧ (r ≠ "" → tableLookup r = some e → lookupExplanation (some r) message = e)
    ∧ (r ≠ "" → tableLookup r = none →
        lookupExplanation (some r) message = genericExplanationEntry)
    ∧ lookupExplanation none message = substringScanSpec message
    ∧ lookupExplanation (some "") message = substringScanSpec message := by
  refine ⟨⟨rfl, rfl⟩, ?_, ?_, ?_, ?_⟩
  · intro hr he; simp [lookupExplanation, jsTruthy, bne_iff_ne, hr, he]
  · intro hr he; simp [lookupExplanation, jsTruthy, bne_iff_ne, hr, he]
  · simp [lookupExplanation, jsTruthy, substringScanSpec]
  · simp [lookupExplanation, jsTruthy, substringScanSpec]

/-- Witness for C8 at concrete rule ids. -/
theorem C8_witness :
    ("ghost" : String) ≠ ""
    ∧ tableLookup "ghost" = none
    ∧ lookupExplanation (some "ghost") "Missing semicolon here" = genericExplanationEntry := by
  refine ⟨by decide, by decide, ?_⟩
  exact (C8_lookup_rules {} "ghost" genericExplanationEntry
    "Missing semicolon here").2.2.1 (by decide) (by decide)

/-- Claim C10: every located g++ diagnostic carries as its filePath the
regex's first capture — in a real run the temporary source file's path —
rather than the `<text>` placeholder, so the temp path is exposed in the
resolved AnalysisResult. -/
theorem C10_located_filepath (line p : String) (l c : Nat) (sev msg : String)
    (h : matchGccLine line = some (p, l, c, sev, msg)) :
    (∀ d ∈ classifyGccLine line, d.filePath = some p)
    ∧ (runCppAnalysis "int x" "/tmp" "42"
        (.closed 1 "/tmp/temp_cpp_code_42.cpp:3:5: error: boom" false
          ⟨false, .fails⟩) true).srcPath = "/tmp/temp_cpp_code_42.cpp"
    ∧ ((runCppAnalysis "int x" "/tmp" "42"
        (.closed 1 "/tmp/temp_cpp_code_42.cpp:3:5: error: boom" false
          ⟨false, .fails⟩) true).result
      = .resolved
          { success := true
            analysis := some [⟨"<text>",
              [{ filePath := some "/tmp/temp_cpp_code_42.cpp", line := 3, column := 5,
                 severity := some "error", message := "boom",
                 ruleId := some "g++-compilation" }]⟩]
            fixedCode := some "int x" })
    ∧ (some "/tmp/temp_cpp_code_42.cpp" : Option String) ≠ some "<text>" := by
  refine ⟨?_, by decide, by decide, by decide⟩
  intro d hd
  simp [classifyGccLine, h] at hd
  subst hd
  rfl

/-- Witness for C10 at a concrete located stderr line. -/
theorem C10_witness :
    matchGccLine "/tmp/a.cpp:1:2: error: x" = some ("/tmp/a.cpp", 1, 2, "error", "x")
    ∧ ({ filePath := some "/tmp/a.cpp", line := 1, column := 2, severity := some "error",
         message := "x", ruleId := some "g++-compilation" } : Diag).filePath
        = some "/tmp/a.cpp" := by
  refine ⟨by decide, ?_⟩
  exact (C10_located_filepath "/tmp/a.cpp:1:2: error: x" "/tmp/a.cpp" 1 2 "error" "x"
    (by decide)).1
    { filePath := some "/tmp/a.cpp", line := 1, column := 2, severity := some "error",
      message := "x", ruleId := some "g++-compilation" } (by decide)
